import Mathlib

/-!
Verification of `baleen/utils/decorators.py` (memoized, timeit, timeout, reraise).

The Python module is shallowly embedded:
* Python exceptions become `ExcObj` values carrying a class tag, a message
  string and an optional attached `original` exception (the attribute the
  `reraise` decorator sets on the translated error).
* The Python exception class hierarchy is modelled by `ExcClass` together
  with its method-resolution list `ExcClass.mro`; `isinstance`/`except`
  checks become `isInstance` / `isInstanceAny` over lists of classes
  (Python `except` tuples).
* A call of a wrapped Python callable either returns a value or raises, so
  callables produce `Except ExcObj α` results; wrappers become functions on
  such results (plus the explicit state they touch).
-/

set_option autoImplicit false

universe u v

/-- Fragment of the Python exception class hierarchy visible to the module,
rooted at `Exception` (the default `trap` argument of `reraise`).
`TimeoutError` is the builtin raised by `_timeout_error` (a subclass of
`OSError` since Python 3.3); `ValueError`, `LookupError` and `KeyError` are
representative builtins used by the spec's test properties.
`BaleenError` and `BaleenTimeout` are modelled from the spec: their defining
module (`baleen.exceptions`) is not among the sources, and §6 of the spec
describes an application error taxonomy whose generic translated-error kind
(`BaleenError`, default `klass` of `reraise`) must be distinguishable from
the timeout-specific kind (`BaleenTimeout`), which refines it. -/
inductive ExcClass : Type where
  | Exception
  | OSError
  | TimeoutError
  | ValueError
  | LookupError
  | KeyError
  | BaleenError
  | BaleenTimeout
deriving Repr, DecidableEq

/-- Method-resolution order of each class: the class itself followed by its
proper superclasses, ending at the root `Exception`. -/
def ExcClass.mro : ExcClass → List ExcClass
  | .Exception => [.Exception]
  | .OSError => [.OSError, .Exception]
  | .TimeoutError => [.TimeoutError, .OSError, .Exception]
  | .ValueError => [.ValueError, .Exception]
  | .LookupError => [.LookupError, .Exception]
  | .KeyError => [.KeyError, .LookupError, .Exception]
  | .BaleenError => [.BaleenError, .Exception]
  | .BaleenTimeout => [.BaleenTimeout, .BaleenError, .Exception]

/-- Class `c` is `d` or a subclass of `d` (Python `issubclass(c, d)`). -/
def isSubclass (c d : ExcClass) : Bool :=
  c.mro.contains d

/-- A Python exception object: its class, its message (the single argument
it was constructed with, which is also its `str(e)` form), and the
`original` attribute that `reraise` sets on translated errors (absent on
freshly raised exceptions). -/
inductive ExcObj : Type where
  | mk (cls : ExcClass) (msg : String) (original : Option ExcObj)
deriving Repr

/-- Class of an exception object. -/
def ExcObj.cls : ExcObj → ExcClass
  | .mk c _ _ => c

/-- Message of an exception object; `str(e)` for exceptions built with a
single string argument. -/
def ExcObj.msg : ExcObj → String
  | .mk _ m _ => m

/-- The `original` attribute the `reraise` decorator attaches. -/
def ExcObj.original : ExcObj → Option ExcObj
  | .mk _ _ o => o

/-- Python `isinstance(e, c)`. -/
def isInstance (e : ExcObj) (c : ExcClass) : Bool :=
  isSubclass e.cls c

/-- Python `isinstance(e, cs)` / `except cs` for a tuple `cs` of classes. -/
def isInstanceAny (e : ExcObj) (cs : List ExcClass) : Bool :=
  cs.any (fun c => isInstance e c)

/-- Python `str(e)` of an exception object. -/
def strOfExc (e : ExcObj) : String :=
  e.msg

/-- Python truthiness-based `message or fallback` for an optional string:
`None` and the empty string are falsy, so both select the fallback. -/
def pyOrStr (message : Option String) (fallback : String) : String :=
  match message with
  | some m => if m = "" then fallback else m
  | none => fallback

/-- The default `trap` argument of `reraise`: the single class `Exception`. -/
def defaultTrap : List ExcClass :=
  [ExcClass.Exception]

/-- The default `ignore` argument of `reraise`: the empty tuple. -/
def defaultIgnore : List ExcClass :=
  []

/-- Embedding of `reraise_wrapper` from `baleen/utils/decorators.py`, acting
on the outcome `r` of the wrapped callable:

```
try:
    return func(*args, **kwargs)
except trap as e:
    if isinstance(e, ignore):
        raise
    error = klass(message or str(e))
    error.original = e
    raise error
```
-/
def reraise_wrapper {α : Type u} (klass : ExcClass) (message : Option String)
    (trap ignore : List ExcClass) (r : Except ExcObj α) : Except ExcObj α :=
  match r with
  | .ok v => .ok v
  | .error e =>
    if isInstanceAny e trap then
      if isInstanceAny e ignore then
        .error e
      else
        .error (ExcObj.mk klass (pyOrStr message (strOfExc e)) (some e))
    else
      .error e

example :
    reraise_wrapper (α := Nat) ExcClass.BaleenError none defaultTrap defaultIgnore
      (Except.error (ExcObj.mk ExcClass.ValueError "boom" none)) =
    Except.error (ExcObj.mk ExcClass.BaleenError "boom"
      (some (ExcObj.mk ExcClass.ValueError "boom" none))) := by
  rfl

example :
    reraise_wrapper (α := Nat) ExcClass.BaleenError none defaultTrap [ExcClass.KeyError]
      (Except.error (ExcObj.mk ExcClass.KeyError "k" none)) =
    Except.error (ExcObj.mk ExcClass.KeyError "k" none) := by
  rfl

/-- A Python object's attribute dictionary, restricted to the attribute
values of one type: newer `setattr` entries are consed at the front and
`getattr` finds the most recent one. -/
abbrev Obj (α : Type u) : Type u := List (String × α)

/-- Python `getattr(self, name, None)`-style lookup. -/
def getattr {α : Type u} (self : Obj α) (name : String) : Option α :=
  match self with
  | [] => none
  | (k, v) :: rest => if k = name then some v else getattr rest name

/-- Python `hasattr(self, name)`. -/
def hasattr {α : Type u} (self : Obj α) (name : String) : Bool :=
  (getattr self name).isSome

/-- Python `delattr(self, name)`: every binding of `name` is removed. -/
def delattr {α : Type u} : Obj α → String → Obj α
  | [], _ => []
  | (k, v) :: rest, name =>
    if k = name then delattr rest name else (k, v) :: delattr rest name

/-- Python `setattr(self, name, v)`. -/
def setattr {α : Type u} (self : Obj α) (name : String) (v : α) : Obj α :=
  (name, v) :: delattr self name

/-- Embedding of `fget_memoized` inside `memoized` from
`baleen/utils/decorators.py`:

```
attr_name = '_{0}'.format(fget.__name__)
def fget_memoized(self):
    if not hasattr(self, attr_name):
        setattr(self, attr_name, fget(self))
    return getattr(self, attr_name)
```

`name` stands for `fget.__name__` and `fget` may raise, in which case
`setattr` never happens and the exception propagates. Matching on
`getattr self attr_name` is the `hasattr` test (`hasattr` is exactly
`Option.isSome` of that lookup), and in the has-attribute branch the
returned value is the `getattr` result. The result carries the possibly
updated object, the read's outcome, and the number of times `fget` was
invoked during this read (0 or 1), which instruments the
"invoked exactly once" properties. -/
def fget_memoized {α : Type u} (name : String) (fget : Obj α → Except ExcObj α)
    (self : Obj α) : Obj α × Except ExcObj α × Nat :=
  match getattr self ("_" ++ name) with
  | some v => (self, Except.ok v, 0)
  | none =>
    match fget self with
    | Except.ok v => (setattr self ("_" ++ name) v, Except.ok v, 1)
    | Except.error e => (self, Except.error e, 1)

/-- Outcomes and `fget`-invocation counts of `n` sequential reads of the
memoized accessor, threading the instance through. -/
def readsFrom {α : Type u} (name : String) (fget : Obj α → Except ExcObj α)
    (self : Obj α) : Nat → List (Except ExcObj α × Nat)
  | 0 => []
  | n + 1 =>
    (fget_memoized name fget self).2 ::
      readsFrom name fget (fget_memoized name fget self).1 n

/-- Modelled from the spec: the `Timer` collaborator (`baleen.utils.timez`)
is not among the sources; §6 specifies a scoped stopwatch with start/stop
and read access to the elapsed duration, and §4.2 a wall-clock reading at
entry and at exit of the `with` block. Timestamps are integers; a monotone
clock yields `started ≤ finished`. -/
structure Timer : Type where
  started : Int
  finished : Int
deriving Repr, DecidableEq

/-- Elapsed duration recorded by the stopwatch. -/
def Timer.elapsed (t : Timer) : Int :=
  t.finished - t.started

/-- Embedding of `timer_wrapper` inside `timeit` from
`baleen/utils/decorators.py`:

```
with Timer() as timer:
    result = func(*args, **kwargs)
return result, timer
```

`startTime` and `finishTime` are the clock readings the `Timer` context
takes on entry and on exit of the `with` block. The success path of the
callable is embedded (`func` total); the claim under verification only
concerns inputs on which the callable returns. -/
def timer_wrapper {α : Type u} {β : Type v} (func : α → β)
    (startTime finishTime : Int) (x : α) : β × Timer :=
  (func x, { started := startTime, finished := finishTime })

/-- The process-wide `SIGALRM` disposition: either the inherited default
handler or the `_timeout_error` closure installed by `timeout_wrapper`
(carrying the `seconds` it captured). -/
inductive AlarmHandler : Type where
  | default
  | timeoutHandler (seconds : Nat)
deriving Repr, DecidableEq

/-- Process-wide signal state touched by the `timeout` decorator: the
installed `SIGALRM` handler and the pending alarm delay in seconds
(`0` = no pending alarm, as in `signal.alarm(0)`). -/
structure SignalState : Type where
  handler : AlarmHandler
  pending : Nat
deriving Repr, DecidableEq

/-- Embedding of the `_timeout_error` handler inside `timeout` from
`baleen/utils/decorators.py`: it raises the builtin `TimeoutError` (not the
imported `BaleenTimeout`), with the message of the source's backslash-
continued string literal, whose continuation keeps the second line's
eight-space indentation between "within " and the formatted number. -/
def _timeout_error (seconds : Nat) : ExcObj :=
  ExcObj.mk ExcClass.TimeoutError
    ("Operation did not finish within         " ++ toString seconds ++ " seconds")
    none

/-- Embedding of `timeout_wrapper` inside `timeout` from
`baleen/utils/decorators.py`:

```
signal.signal(signal.SIGALRM, _timeout_error)
signal.alarm(seconds)
try:
    return func(*args, **kwargs)
finally:
    signal.alarm(0)
```

`st` is the signal state on entry; `duration` is how many seconds the
wrapped callable would run before producing `res`. The armed alarm fires
during the call exactly when it is armed (`seconds ≠ 0`) and the call has
not returned by then (`seconds ≤ duration`); firing runs the just-installed
`_timeout_error` handler, which raises inside the call. The `finally`
clause disarms the alarm on every path; the handler installation is never
undone. -/
def timeout_wrapper {α : Type u} (seconds : Nat) (st : SignalState)
    (duration : Nat) (res : Except ExcObj α) : SignalState × Except ExcObj α :=
  let st1 : SignalState := { st with handler := AlarmHandler.timeoutHandler seconds }
  let st2 : SignalState := { st1 with pending := seconds }
  let outcome : Except ExcObj α :=
    if st2.pending ≠ 0 ∧ st2.pending ≤ duration then
      Except.error (_timeout_error seconds)
    else
      res
  ({ st2 with pending := 0 }, outcome)

example :
    fget_memoized "x" (fun _ => Except.ok 42) ([] : Obj Nat) =
      ([("_x", 42)], Except.ok 42, 1) := by
  rfl

example :
    (timeout_wrapper 1 ⟨AlarmHandler.default, 0⟩ 5 (Except.ok (42 : Nat))).2 =
      Except.error (_timeout_error 1) := by
  rfl

/-! Helper lemmas shared by the claim theorems. -/

/-- Every modelled class is a subclass of the root `Exception`, so the
default `trap=Exception` of `reraise` catches every exception object. -/
theorem isSubclass_Exception (c : ExcClass) :
    isSubclass c ExcClass.Exception = true := by
  cases c <;> decide

/-- Instance check against the default trap tuple always succeeds. -/
theorem isInstanceAny_defaultTrap (e : ExcObj) :
    isInstanceAny e defaultTrap = true := by
  simp [isInstanceAny, defaultTrap, isInstance, isSubclass_Exception]

/-- Reading an attribute right after writing it yields the written value. -/
theorem getattr_setattr_self {α : Type u} (self : Obj α) (n : String) (v : α) :
    getattr (setattr self n v) n = some v := by
  simp [setattr, getattr]

/-- Deleting an attribute removes every binding of it. -/
theorem getattr_delattr_self {α : Type u} (self : Obj α) (n : String) :
    getattr (delattr self n) n = none := by
  induction self with
  | nil => rfl
  | cons p rest ih =>
    obtain ⟨k, v⟩ := p
    by_cases h : k = n
    · simpa [delattr, h] using ih
    · simpa [delattr, getattr, h] using ih

/-- An absent attribute is a `none` lookup. -/
theorem getattr_eq_none_of_hasattr_false {α : Type u} (self : Obj α) (n : String)
    (h : hasattr self n = false) : getattr self n = none := by
  unfold hasattr at h
  cases hg : getattr self n with
  | none => rfl
  | some w => rw [hg] at h; simp at h

/-- A read that finds the cache slot populated returns the stored value,
leaves the instance untouched and does not invoke the computation. -/
theorem fget_memoized_cached {α : Type u} (name : String)
    (fget : Obj α → Except ExcObj α) (self : Obj α) (v : α)
    (h : getattr self ("_" ++ name) = some v) :
    fget_memoized name fget self = (self, Except.ok v, 0) := by
  simp [fget_memoized, h]

/-- Once the cache slot is populated, any number of sequential reads all
return the stored value and never invoke the computation. -/
theorem readsFrom_cached {α : Type u} (name : String)
    (fget : Obj α → Except ExcObj α) (self : Obj α) (v : α)
    (h : getattr self ("_" ++ name) = some v) (n : Nat) :
    readsFrom name fget self n = List.replicate n (Except.ok v, 0) := by
  induction n with
  | zero => rfl
  | succ n ih =>
    rw [readsFrom, fget_memoized_cached name fget self v h]
    simp [List.replicate, ih]

/-! Claim theorems. -/

/-- C1: at a concrete failing input (limit 1 second, callable still running
after 5 seconds) the fired deadline raises the builtin `TimeoutError`, whose
message does identify the configured limit, but which is an instance of
neither `BaleenTimeout` nor `BaleenError`: the failure is not of the
application's timeout-specific error kind, contradicting the claim (the
module imports `BaleenTimeout` and never uses it). -/
theorem timeout_fired_raises_builtin_kind :
    (timeout_wrapper 1 { handler := AlarmHandler.default, pending := 0 } 5
        (Except.ok (42 : Nat))).2 =
      Except.error (ExcObj.mk ExcClass.TimeoutError
        "Operation did not finish within         1 seconds" none)
    ∧ isInstance (_timeout_error 1) ExcClass.BaleenTimeout = false
    ∧ isInstance (_timeout_error 1) ExcClass.BaleenError = false := by
  refine ⟨?_, ?_, ?_⟩ <;> rfl

/-- C2: on every exit path (normal return, exception from the callable, or
fired deadline) the wrapper's `finally` clause leaves no pending alarm:
the resulting signal state has `pending = 0`, so no further deadline fires
absent a new enforced call. -/
theorem timeout_disarms_on_every_path {α : Type u} (seconds : Nat)
    (st : SignalState) (duration : Nat) (res : Except ExcObj α) :
    (timeout_wrapper seconds st duration res).1.pending = 0 := by
  rfl

/-- C9: every deadline-enforced call installs the module's handler as the
process-wide SIGALRM disposition and never restores the previous one:
whatever handler was installed before, after the call the handler is the
module's `_timeout_error` closure, and only the pending alarm is cleared. -/
theorem timeout_handler_stays_replaced {α : Type u} (seconds : Nat)
    (st : SignalState) (duration : Nat) (res : Except ExcObj α) :
    (timeout_wrapper seconds st duration res).1.handler
      = AlarmHandler.timeoutHandler seconds
    ∧ (timeout_wrapper seconds st duration res).1.pending = 0 := by
  exact ⟨rfl, rfl⟩

/-- C3 counterexample: with a supplied empty-string override message the
translated error's message is the string form of the original exception
("boom"), not the supplied override "": Python's `message or str(e)`
treats the empty string as falsy, refuting the claim's "including any
supplied message, e.g. an empty string". -/
theorem reraise_empty_override_counterexample :
    reraise_wrapper (α := Nat) ExcClass.BaleenError (some "") defaultTrap
        defaultIgnore (Except.error (ExcObj.mk ExcClass.ValueError "boom" none))
      = Except.error (ExcObj.mk ExcClass.BaleenError "boom"
          (some (ExcObj.mk ExcClass.ValueError "boom" none)))
    ∧ ("boom" : String) ≠ "" := by
  exact ⟨rfl, by decide⟩

/-- C3 (amended): for every trapped, non-ignored exception the wrapper
raises a new error of the normalized kind whose message is the override
message if one was supplied and non-empty (a `None` or empty override falls
back to the string form of the original exception), and the original
exception object itself is attached as the new error's `original`. -/
theorem reraise_translates_trapped {α : Type u} (klass : ExcClass)
    (message : Option String) (trap ignore : List ExcClass) (e : ExcObj)
    (htrap : isInstanceAny e trap = true)
    (hig : isInstanceAny e ignore = false) :
    reraise_wrapper (α := α) klass message trap ignore (Except.error e)
      = Except.error (ExcObj.mk klass
          (match message with
           | some m => if m = "" then strOfExc e else m
           | none => strOfExc e)
          (some e)) := by
  cases message with
  | none => simp [reraise_wrapper, htrap, hig, pyOrStr]
  | some m => simp [reraise_wrapper, htrap, hig, pyOrStr]

/-- C3 witness: a `ValueError` trapped by the default trap with override
message "msg" becomes a `BaleenError` with message "msg" and the original
attached. -/
theorem reraise_translates_trapped_witness :
    isInstanceAny (ExcObj.mk ExcClass.ValueError "boom" none) defaultTrap = true
    ∧ isInstanceAny (ExcObj.mk ExcClass.ValueError "boom" none) defaultIgnore = false
    ∧ reraise_wrapper (α := Nat) ExcClass.BaleenError (some "msg") defaultTrap
        defaultIgnore (Except.error (ExcObj.mk ExcClass.ValueError "boom" none))
      = Except.error (ExcObj.mk ExcClass.BaleenError "msg"
          (some (ExcObj.mk ExcClass.ValueError "boom" none))) := by
  refine ⟨rfl, rfl, ?_⟩
  have h := reraise_translates_trapped (α := Nat) ExcClass.BaleenError (some "msg")
    defaultTrap defaultIgnore (ExcObj.mk ExcClass.ValueError "boom" none) rfl rfl
  simpa using h

/-- C4: an exception whose kind is in the ignore set is re-raised as the
very same exception object, with no translation, whether or not its kind
is also in the trap set. -/
theorem reraise_ignored_passes_through {α : Type u} (klass : ExcClass)
    (message : Option String) (trap ignore : List ExcClass) (e : ExcObj)
    (hig : isInstanceAny e ignore = true) :
    reraise_wrapper (α := α) klass message trap ignore (Except.error e)
      = Except.error e := by
  cases htrap : isInstanceAny e trap <;> simp [reraise_wrapper, htrap, hig]

/-- C4 witness: a `KeyError` ignored via `ignore=(KeyError,)` passes
through untranslated even though the default trap also catches it. -/
theorem reraise_ignored_passes_through_witness :
    isInstanceAny (ExcObj.mk ExcClass.KeyError "k" none) [ExcClass.KeyError] = true
    ∧ isInstanceAny (ExcObj.mk ExcClass.KeyError "k" none) defaultTrap = true
    ∧ reraise_wrapper (α := Nat) ExcClass.BaleenError none defaultTrap
        [ExcClass.KeyError] (Except.error (ExcObj.mk ExcClass.KeyError "k" none))
      = Except.error (ExcObj.mk ExcClass.KeyError "k" none) := by
  exact ⟨rfl, rfl,
    reraise_ignored_passes_through ExcClass.BaleenError none defaultTrap
      [ExcClass.KeyError] (ExcObj.mk ExcClass.KeyError "k" none) rfl⟩

/-- C5: an exception whose kind is not caught by the trap tuple propagates
unchanged (the trap set is the only filter), and the default
`trap=Exception` catches every exception object of the modelled hierarchy
("traps everything"). -/
theorem reraise_untrapped_passes_through {α : Type u} (klass : ExcClass)
    (message : Option String) (trap ignore : List ExcClass) (e : ExcObj)
    (htrap : isInstanceAny e trap = false) :
    reraise_wrapper (α := α) klass message trap ignore (Except.error e)
      = Except.error e
    ∧ ∀ e2 : ExcObj, isInstanceAny e2 defaultTrap = true := by
  constructor
  · simp [reraise_wrapper, htrap]
  · exact isInstanceAny_defaultTrap

/-- C5 witness: with the trap narrowed to `ValueError`, a raised `KeyError`
passes through unchanged; and the default trap catches that `KeyError`. -/
theorem reraise_untrapped_passes_through_witness :
    isInstanceAny (ExcObj.mk ExcClass.KeyError "k" none) [ExcClass.ValueError] = false
    ∧ reraise_wrapper (α := Nat) ExcClass.BaleenError none [ExcClass.ValueError]
        defaultIgnore (Except.error (ExcObj.mk ExcClass.KeyError "k" none))
      = Except.error (ExcObj.mk ExcClass.KeyError "k" none)
    ∧ isInstanceAny (ExcObj.mk ExcClass.KeyError "k" none) defaultTrap = true := by
  refine ⟨rfl, ?_, ?_⟩
  · exact (reraise_untrapped_passes_through ExcClass.BaleenError none
      [ExcClass.ValueError] defaultIgnore (ExcObj.mk ExcClass.KeyError "k" none) rfl).1
  · exact (reraise_untrapped_passes_through (α := Nat) ExcClass.BaleenError none
      [ExcClass.ValueError] defaultIgnore (ExcObj.mk ExcClass.KeyError "k" none) rfl).2
      (ExcObj.mk ExcClass.KeyError "k" none)

/-- C6: starting from an instance whose cache slot is unset, a first
successful read invokes the computation exactly once, stores the value, and
returns it; across any number of further sequential reads on the resulting
instance the computation is invoked zero more times and every read returns
the same stored value. -/
theorem memoized_computes_once {α : Type u} (name : String)
    (fget : Obj α → Except ExcObj α) (self : Obj α) (v : α)
    (hunset : hasattr self ("_" ++ name) = false)
    (hok : fget self = Except.ok v) :
    fget_memoized name fget self = (setattr self ("_" ++ name) v, Except.ok v, 1)
    ∧ ∀ n : Nat, readsFrom name fget (fget_memoized name fget self).1 n
        = List.replicate n (Except.ok v, 0) := by
  have hget := getattr_eq_none_of_hasattr_false self ("_" ++ name) hunset
  have h1 : fget_memoized name fget self
      = (setattr self ("_" ++ name) v, Except.ok v, 1) := by
    simp [fget_memoized, hget, hok]
  refine ⟨h1, fun n => ?_⟩
  rw [h1]
  exact readsFrom_cached name fget _ v (getattr_setattr_self self ("_" ++ name) v) n

/-- C6 witness: on a fresh instance the accessor named "x" computes 42
once, and the next two reads return the cached 42 without recomputing. -/
theorem memoized_computes_once_witness :
    hasattr ([] : Obj Nat) ("_" ++ "x") = false
    ∧ (fun _ : Obj Nat => Except.ok (ε := ExcObj) 42) [] = Except.ok 42
    ∧ fget_memoized "x" (fun _ => Except.ok 42) ([] : Obj Nat)
        = (setattr ([] : Obj Nat) ("_" ++ "x") 42, Except.ok 42, 1)
    ∧ readsFrom "x" (fun _ => Except.ok 42)
        (fget_memoized "x" (fun _ => Except.ok 42) ([] : Obj Nat)).1 2
        = List.replicate 2 (Except.ok 42, 0) := by
  refine ⟨rfl, rfl, ?_, ?_⟩
  · exact (memoized_computes_once "x" (fun _ => Except.ok 42) [] 42 rfl rfl).1
  · exact (memoized_computes_once "x" (fun _ => Except.ok 42) [] 42 rfl rfl).2 2

/-- C7: when the computation raises on a first access with the slot unset,
the exception propagates, the instance is returned unchanged with the slot
still unset, and the very next read invokes the computation again. -/
theorem memoized_failure_leaves_slot_unset {α : Type u} (name : String)
    (fget : Obj α → Except ExcObj α) (self : Obj α) (e : ExcObj)
    (hunset : hasattr self ("_" ++ name) = false)
    (herr : fget self = Except.error e) :
    fget_memoized name fget self = (self, Except.error e, 1)
    ∧ hasattr (fget_memoized name fget self).1 ("_" ++ name) = false
    ∧ (fget_memoized name fget (fget_memoized name fget self).1).2.2 = 1 := by
  have hget := getattr_eq_none_of_hasattr_false self ("_" ++ name) hunset
  have h1 : fget_memoized name fget self = (self, Except.error e, 1) := by
    simp [fget_memoized, hget, herr]
  refine ⟨h1, ?_, ?_⟩
  · rw [h1]; exact hunset
  · rw [h1]; simp [fget_memoized, hget, herr]

/-- C7 witness: an accessor that always raises a `ValueError` propagates it
on a fresh instance, the slot stays unset, and the second read invokes the
computation again. -/
theorem memoized_failure_leaves_slot_unset_witness :
    hasattr ([] : Obj Nat) ("_" ++ "x") = false
    ∧ (fun _ : Obj Nat => Except.error (α := Nat) (ExcObj.mk ExcClass.ValueError "bad" none)) []
        = Except.error (ExcObj.mk ExcClass.ValueError "bad" none)
    ∧ fget_memoized "x"
        (fun _ => Except.error (ExcObj.mk ExcClass.ValueError "bad" none))
        ([] : Obj Nat)
        = ([], Except.error (ExcObj.mk ExcClass.ValueError "bad" none), 1)
    ∧ (fget_memoized "x"
        (fun _ => Except.error (ExcObj.mk ExcClass.ValueError "bad" none))
        (fget_memoized "x"
          (fun _ => Except.error (ExcObj.mk ExcClass.ValueError "bad" none))
          ([] : Obj Nat)).1).2.2 = 1 := by
  refine ⟨rfl, rfl, ?_, ?_⟩
  · exact (memoized_failure_leaves_slot_unset "x" _ []
      (ExcObj.mk ExcClass.ValueError "bad" none) rfl rfl).1
  · exact (memoized_failure_leaves_slot_unset "x" _ []
      (ExcObj.mk ExcClass.ValueError "bad" none) rfl rfl).2.2

/-- C10: the cache slot is the attribute named `"_" ++ name` and its mere
presence is the whole cache test: if the instance already has that
attribute before the first read, the computation is never invoked and that
attribute's value is returned with the instance untouched; deleting the
attribute makes the next read invoke the computation again. -/
theorem memoized_slot_is_attribute_presence {α : Type u} (name : String)
    (fget : Obj α → Except ExcObj α) (self : Obj α) (v : α)
    (hset : getattr self ("_" ++ name) = some v) :
    fget_memoized name fget self = (self, Except.ok v, 0)
    ∧ hasattr (delattr self ("_" ++ name)) ("_" ++ name) = false
    ∧ (fget_memoized name fget (delattr self ("_" ++ name))).2.2 = 1 := by
  refine ⟨fget_memoized_cached name fget self v hset, ?_, ?_⟩
  · simp [hasattr, getattr_delattr_self]
  · cases hf : fget (delattr self ("_" ++ name)) <;>
      simp [fget_memoized, getattr_delattr_self, hf]

/-- C10 witness: an instance carrying a pre-set "_x" attribute returns its
value 5 without invoking the computation (which would return 7), and after
deleting "_x" the next read invokes the computation. -/
theorem memoized_slot_is_attribute_presence_witness :
    getattr ([("_x", 5)] : Obj Nat) ("_" ++ "x") = some 5
    ∧ fget_memoized "x" (fun _ => Except.ok 7) ([("_x", 5)] : Obj Nat)
        = ([("_x", 5)], Except.ok 5, 0)
    ∧ hasattr (delattr ([("_x", 5)] : Obj Nat) ("_" ++ "x")) ("_" ++ "x") = false
    ∧ (fget_memoized "x" (fun _ => Except.ok 7)
        (delattr ([("_x", 5)] : Obj Nat) ("_" ++ "x"))).2.2 = 1 := by
  refine ⟨rfl, ?_, ?_, ?_⟩
  · exact (memoized_slot_is_attribute_presence "x" (fun _ => Except.ok 7)
      [("_x", 5)] 5 rfl).1
  · exact (memoized_slot_is_attribute_presence "x" (fun _ => Except.ok (7 : Nat))
      [("_x", 5)] 5 rfl).2.1
  · exact (memoized_slot_is_attribute_presence "x" (fun _ => Except.ok 7)
      [("_x", 5)] 5 rfl).2.2

/-- C8: on every input on which the wrapped callable returns, the timing
wrapper returns the callable's own result paired with an elapsed-time
record, and with monotone clock readings the recorded elapsed time is
nonnegative. -/
theorem timeit_preserves_result_nonneg_elapsed {α : Type u} {β : Type v}
    (func : α → β) (startTime finishTime : Int) (x : α)
    (hmono : startTime ≤ finishTime) :
    (timer_wrapper func startTime finishTime x).1 = func x
    ∧ 0 ≤ (timer_wrapper func startTime finishTime x).2.elapsed := by
  refine ⟨rfl, ?_⟩
  simpa [timer_wrapper, Timer.elapsed] using sub_nonneg.mpr hmono

/-- C8 witness: timing the successor function at 3 between clock readings
0 and 2 yields the direct result 4 and elapsed time 2 ≥ 0. -/
theorem timeit_preserves_result_nonneg_elapsed_witness :
    (0 : Int) ≤ 2
    ∧ (timer_wrapper (fun n : Nat => n + 1) 0 2 3).1 = (fun n : Nat => n + 1) 3
    ∧ 0 ≤ (timer_wrapper (fun n : Nat => n + 1) 0 2 3).2.elapsed := by
  refine ⟨by decide, ?_, ?_⟩
  · exact (timeit_preserves_result_nonneg_elapsed (fun n : Nat => n + 1) 0 2 3
      (by decide)).1
  · exact (timeit_preserves_result_nonneg_elapsed (fun n : Nat => n + 1) 0 2 3
      (by decide)).2
